import Mathlib

/-!
Verification of `autothread.h` (namespace `wsp::details`): a move-only
ownership wrapper around `std::thread` with two disposal policies,
`autothread<join>` (the destructor joins a joinable handle) and
`autothread<detach>` (the destructor detaches it).

Modelling choices:
* an owned `std::thread` member is `Option Nat`: `some tid` when the handle
  owns a thread of execution with id `tid` (`joinable()` is true), `none`
  when it is default-constructed, moved-from, or already joined/detached;
* disposal calls are recorded as values of `Action`, so "exactly one
  disposal per underlying thread" becomes a statement about emitted traces;
* availability of the special member functions (which C++ decides at
  compile time) is recorded in the `SpecialMembers` record, read off the
  declarations at lines 25-28 / 39-42 together with the implicit-member
  rules of C++.
-/

namespace wsp.details

/-- Policy tags, modelling `struct join` and `struct detach` declared at
lines 13-14 of autothread.h and used to select the specialization
`autothread<join>` or `autothread<detach>`. -/
inductive Policy
  | join
  | detach
deriving DecidableEq

/-- Disposal actions applied to an underlying thread handle. `joined tid`
models a call `thrd.join()`: the destroying execution context blocks until
thread `tid` finishes (a full synchronization point) and the handle is
released. `detached tid` models a call `thrd.detach()`: the claim on thread
`tid` is released without blocking and the thread keeps running on its own. -/
inductive Action
  | joined (tid : Nat)
  | detached (tid : Nat)
deriving DecidableEq

/-- The wrapper state: its single data member `std::thread thrd`
(lines 23 / 37), modelled as `some tid` exactly when `thrd.joinable()`
holds, with `tid` the id of the owned thread of execution. -/
structure autothread where
  thrd : Option Nat
deriving DecidableEq

/-- Converting constructor `autothread(std::thread&& t): thrd(std::move(t))`
(lines 25 / 39): the incoming `std::thread` is adopted by move. The result
pairs the new wrapper with the post-move state of the argument, which the
`std::thread` move constructor leaves without a thread. -/
def autothread.ofThread (t : Option Nat) : autothread × Option Nat :=
  (⟨t⟩, none)

/-- Defaulted move constructor `autothread(autothread&& other) = default`
(lines 27 / 41): a member-wise move of `thrd`. The source wrapper is left
holding no thread, and the defaulted body invokes neither `join` nor
`detach`, so the list of disposal actions emitted during the move is empty.
Result: (destination, moved-from source, actions emitted by the move). -/
def autothread.moveCtor (other : autothread) : autothread × autothread × List Action :=
  (⟨other.thrd⟩, ⟨none⟩, [])

/-- Destructors of the two specializations, line 28
(`~autothread() ... if (thrd.joinable()) thrd.join();`) and line 42
(`~autothread() ... if (thrd.joinable()) thrd.detach();`). Result: the
disposal actions emitted, and the state of the `thrd` member just before it
is destroyed (`join` and `detach` both leave the handle not joinable; when
the `joinable()` guard fails, nothing is called and `thrd` stays empty). -/
def autothread.destruct : Policy → autothread → List Action × Option Nat
  | Policy.join, a =>
      match a.thrd with
      | some tid => ([Action.joined tid], none)
      | none => ([], none)
  | Policy.detach, a =>
      match a.thrd with
      | some tid => ([Action.detached tid], none)
      | none => ([], none)

/-- Model of the underlying primitive `std::thread::join()` with its
fallibility made explicit: invoked on a handle that owns no thread (for
example one already disposed of through a misuse path) it fails with
`std::system_error` carrying `invalid_argument`; invoked on a joinable
handle it waits for the thread and leaves the handle not joinable. -/
def stdJoin : Option Nat → Except String (Action × Option Nat)
  | some tid => Except.ok (Action.joined tid, none)
  | none => Except.error "invalid_argument"

/-- Model of the underlying primitive `std::thread::detach()`, fallible in
the same way as `stdJoin`: it fails on a handle that owns no thread and
otherwise releases the thread without blocking. -/
def stdDetach : Option Nat → Except String (Action × Option Nat)
  | some tid => Except.ok (Action.detached tid, none)
  | none => Except.error "invalid_argument"

/-- Destructor expressed over the fallible primitives: exactly as in the
source, the call to `join` / `detach` is guarded by `thrd.joinable()`
(lines 28 / 42), so the primitive is only ever reached on a joinable
handle. An `Except.error` result would model a failure escaping the
owner's lifetime boundary. -/
def autothread.destructE : Policy → autothread → Except String (List Action × Option Nat)
  | Policy.join, a =>
      if a.thrd.isSome then
        (stdJoin a.thrd).map (fun r => ([r.1], r.2))
      else Except.ok ([], a.thrd)
  | Policy.detach, a =>
      if a.thrd.isSome then
        (stdDetach a.thrd).map (fun r => ([r.1], r.2))
      else Except.ok ([], a.thrd)

/-- Default-constructed `std::thread::id`, the designated "no thread"
identity: the value `std::thread::get_id()` returns when the handle owns no
thread of execution. -/
def defaultThreadId : Option Nat := none

/-- Identity query `id get_id() ... return thrd.get_id();` (lines 30-31 and
44-45). The result is paired with the wrapper state after the call; the
body only reads `thrd`, so that state is the wrapper itself, unchanged.
`std::thread::get_id()` yields the owned thread's id, or the
default-constructed id (`defaultThreadId`) when no thread is owned. -/
def autothread.get_id (a : autothread) : Option Nat × autothread :=
  (a.thrd, a)

/-- Ownership transferred through `n` successive move constructions:
returns the final owner, the list of moved-from intermediate wrappers, and
every disposal action emitted during the moves. -/
def moveChain : autothread → Nat → autothread × List autothread × List Action
  | a, 0 => (a, [], [])
  | a, n + 1 =>
      let s := autothread.moveCtor a
      let r := moveChain s.1 n
      (r.1, s.2.1 :: r.2.1, s.2.2 ++ r.2.2)

/-- The single disposal action policy `p` applies to thread `tid`. -/
def disposalOf : Policy → Nat → Action
  | Policy.join, tid => Action.joined tid
  | Policy.detach, tid => Action.detached tid

/-- End-to-end ownership scenario: adopt the handle `t`, move ownership
through `n` intermediate owners, then let every wrapper be destroyed (each
moved-from intermediate and the final owner). Returns every disposal action
emitted anywhere in the scenario. -/
def chainDispose (p : Policy) (t : Option Nat) (n : Nat) : List Action :=
  let c0 := autothread.ofThread t
  let c := moveChain c0.1 n
  c.2.2 ++ (c.2.1.map (fun b => (autothread.destruct p b).1)).flatten
    ++ (autothread.destruct p c.1).1

/-- Availability of a C++ special member function. `available` means the
member exists and can be called; `deleted` means it is declared but
deleted, so any use is rejected at compile time; `notDeclared` means the
member is not declared at all (uses fall back to other overloads or are
rejected at compile time). -/
inductive MemberStatus
  | available
  | deleted
  | notDeclared
deriving DecidableEq

/-- The four copy/move special member functions of a class. -/
structure SpecialMembers where
  copyCtor : MemberStatus
  copyAssign : MemberStatus
  moveCtor : MemberStatus
  moveAssign : MemberStatus
deriving DecidableEq

/-- Special member functions of `autothread<join>` and `autothread<detach>`
(the two specializations declare them identically, lines 25-28 / 39-42):
the copy constructor is explicitly deleted (lines 26 / 40), the move
constructor is explicitly defaulted (lines 27 / 41), and no assignment
operator is declared anywhere in either class. By the C++ implicit-member
rules, the user-declared move constructor makes the implicit copy
assignment operator defined as deleted, and the user-declared copy
constructor, move constructor and destructor suppress the implicit move
assignment operator entirely, so move assignment is not declared and a
move-assignment expression resolves to the deleted copy assignment. -/
def autothreadMembers (p : Policy) : SpecialMembers :=
  match p with
  | Policy.join =>
      { copyCtor := MemberStatus.deleted
        copyAssign := MemberStatus.deleted
        moveCtor := MemberStatus.available
        moveAssign := MemberStatus.notDeclared }
  | Policy.detach =>
      { copyCtor := MemberStatus.deleted
        copyAssign := MemberStatus.deleted
        moveCtor := MemberStatus.available
        moveAssign := MemberStatus.notDeclared }

/-- Owner-visible lifecycle state of the handle held by one wrapper object:
`empty` (owns no thread), `joinable tid` (owns the live or
finished-but-undisposed thread `tid`), `disposed` (terminal, reached when
the destructor joins or detaches). -/
inductive OwnerState
  | empty
  | joinable (tid : Nat)
  | disposed
deriving DecidableEq

/-- Every mutation of an existing wrapper object the source provides, as a
step relation on `OwnerState`: being moved from (move constructor, lines
27 / 41, which empties the source without disposing), the identity query
(lines 31 / 45, which mutates nothing), and destruction (lines 28 / 42).
There is no other operation: the copy constructor is deleted (lines
26 / 40) and no assignment operator exists (see `autothreadMembers`), so no
constructor of this relation produces a `joinable` state — after
construction a wrapper is never re-pointed at a thread. -/
inductive Step : OwnerState → OwnerState → Prop
  | moveFromJoinable (tid : Nat) : Step (OwnerState.joinable tid) OwnerState.empty
  | moveFromEmpty : Step OwnerState.empty OwnerState.empty
  | getId (s : OwnerState) (h : s ≠ OwnerState.disposed) : Step s s
  | destroyJoinable (tid : Nat) : Step (OwnerState.joinable tid) OwnerState.disposed
  | destroyEmpty : Step OwnerState.empty OwnerState.disposed

lemma destruct_empty (p : Policy) (b : autothread) (h : b.thrd = none) :
    autothread.destruct p b = ([], none) := by
  cases p <;> simp [autothread.destruct, h]

lemma destruct_owned (p : Policy) (b : autothread) (tid : Nat) (h : b.thrd = some tid) :
    autothread.destruct p b = ([disposalOf p tid], none) := by
  cases p <;> simp [autothread.destruct, disposalOf, h]

lemma moveChain_owner (n : Nat) : ∀ a : autothread, (moveChain a n).1 = a := by
  induction n with
  | zero => intro a; rfl
  | succ m ih => intro a; exact ih ⟨a.thrd⟩

lemma moveChain_intermediates (n : Nat) :
    ∀ a : autothread, ∀ b ∈ (moveChain a n).2.1, b.thrd = none := by
  induction n with
  | zero => intro a b hb; simp [moveChain] at hb
  | succ m ih =>
      intro a b hb
      simp only [moveChain, autothread.moveCtor, List.mem_cons] at hb
      rcases hb with hb | hb
      · rw [hb]
      · exact ih ⟨a.thrd⟩ b hb

lemma moveChain_silent (n : Nat) : ∀ a : autothread, (moveChain a n).2.2 = [] := by
  induction n with
  | zero => intro a; rfl
  | succ m ih =>
      intro a
      simp only [moveChain, autothread.moveCtor, List.nil_append]
      exact ih ⟨a.thrd⟩

lemma destructList_empty (p : Policy) (l : List autothread)
    (h : ∀ b ∈ l, b.thrd = none) :
    (l.map (fun b => (autothread.destruct p b).1)).flatten = [] := by
  induction l with
  | nil => rfl
  | cons x xs ih =>
      simp only [List.map_cons, List.flatten_cons]
      rw [destruct_empty p x (h x (List.mem_cons_self x xs)),
        ih (fun b hb => h b (List.mem_cons_of_mem x hb))]
      rfl

/-- C1: through any chain of autothread owners (either policy), at most one
disposal action is ever applied to the underlying handle; when the adopted
handle is joinable, moving ownership through `n` intermediate owners and
then destroying every wrapper emits exactly one join or detach, never `n`,
and when it is empty no disposal is emitted at all. -/
theorem autothread_exactly_one_disposal (p : Policy) (tid n : Nat) :
    chainDispose p (some tid) n = [disposalOf p tid] ∧
    chainDispose p none n = [] := by
  constructor
  · have h1 := moveChain_silent n (⟨some tid⟩ : autothread)
    have h2 := destructList_empty p ((moveChain ⟨some tid⟩ n).2.1)
      (moveChain_intermediates n ⟨some tid⟩)
    have h3 := moveChain_owner n (⟨some tid⟩ : autothread)
    simp only [chainDispose, autothread.ofThread, h1, h2, h3, List.nil_append]
    exact destruct_owned p ⟨some tid⟩ tid rfl ▸ rfl
  · have h1 := moveChain_silent n (⟨none⟩ : autothread)
    have h2 := destructList_empty p ((moveChain ⟨none⟩ n).2.1)
      (moveChain_intermediates n ⟨none⟩)
    have h3 := moveChain_owner n (⟨none⟩ : autothread)
    simp only [chainDispose, autothread.ofThread, h1, h2, h3, List.nil_append]
    exact destruct_empty p ⟨none⟩ rfl ▸ rfl

/-- C2: when the owned handle is joinable at destruction time the
`autothread<join>` destructor blocks until the owned thread finishes
(`Action.joined`) and releases the handle, while the `autothread<detach>`
destructor detaches without blocking (`Action.detached`); when the handle
is not joinable (for example after a move-from), destruction emits no
disposal action at all. -/
theorem autothread_destructor_behavior (a : autothread) (tid : Nat) :
    (a.thrd = some tid →
      autothread.destruct Policy.join a = ([Action.joined tid], none) ∧
      autothread.destruct Policy.detach a = ([Action.detached tid], none)) ∧
    (a.thrd = none → ∀ p, autothread.destruct p a = ([], none)) := by
  constructor
  · intro h
    exact ⟨by simp [autothread.destruct, h], by simp [autothread.destruct, h]⟩
  · intro h p
    exact destruct_empty p a h

/-- C2 witness: the destructors evaluated on a wrapper owning thread 3 and
on an empty wrapper. -/
theorem autothread_destructor_behavior_witness :
    autothread.destruct Policy.join ⟨some 3⟩ = ([Action.joined 3], none) ∧
    autothread.destruct Policy.detach ⟨some 3⟩ = ([Action.detached 3], none) ∧
    autothread.destruct Policy.join ⟨none⟩ = ([], none) :=
  ⟨((autothread_destructor_behavior ⟨some 3⟩ 3).1 rfl).1,
   ((autothread_destructor_behavior ⟨some 3⟩ 3).1 rfl).2,
   (autothread_destructor_behavior ⟨none⟩ 0).2 rfl Policy.join⟩

/-- C3 counterexample: the claim speaks of move assignment disposing of the
destination's current handle, but neither specialization has an available
move assignment operator — the class declares none, the user-declared copy
constructor, move constructor and destructor suppress the implicit one,
and the expression falls back to the deleted copy assignment — so the
claimed dispose-then-adopt behavior does not exist in the code. -/
theorem autothread_move_assign_not_available :
    (autothreadMembers Policy.join).moveAssign ≠ MemberStatus.available ∧
    (autothreadMembers Policy.detach).moveAssign ≠ MemberStatus.available := by
  decide

/-- C3 amended: move assignment onto an autothread (either policy) is not
available at all — the move assignment operator is not declared and copy
assignment is deleted, so any assignment onto an owner is rejected at
compile time, and the scenario of dropping a still-running thread through
assignment cannot arise. -/
theorem autothread_move_assign_rejected (p : Policy) :
    (autothreadMembers p).moveAssign = MemberStatus.notDeclared ∧
    (autothreadMembers p).copyAssign = MemberStatus.deleted := by
  cases p <;> exact ⟨rfl, rfl⟩

/-- C4: move construction (either policy) transfers ownership of the
underlying handle to the destination, leaves the source not-joinable
(empty), performs no disposal action at move time, and the subsequent
destruction of the moved-from source is a no-op emitting no join or
detach. -/
theorem autothread_move_transfers_ownership (a : autothread) (p : Policy) :
    (autothread.moveCtor a).1.thrd = a.thrd ∧
    (autothread.moveCtor a).2.1.thrd = none ∧
    (autothread.moveCtor a).2.2 = [] ∧
    autothread.destruct p (autothread.moveCtor a).2.1 = ([], none) := by
  refine ⟨rfl, rfl, rfl, ?_⟩
  exact destruct_empty p ⟨none⟩ rfl

/-- C5: for both policy specializations, the copy constructor and the copy
assignment operator are deleted — copying is rejected at compile time, not
at runtime (`MemberStatus.deleted` means exactly that any use is a
compile-time error). -/
theorem autothread_copy_disallowed (p : Policy) :
    (autothreadMembers p).copyCtor = MemberStatus.deleted ∧
    (autothreadMembers p).copyAssign = MemberStatus.deleted ∧
    (autothreadMembers p).copyCtor ≠ MemberStatus.available := by
  cases p <;> exact ⟨rfl, rfl, by decide⟩

/-- C6: constructing an autothread (either policy) from an empty thread
handle succeeds and yields a wrapper owning no thread, and its later
destruction performs no disposal action and raises no failure. -/
theorem autothread_empty_handle_noop (p : Policy) :
    (autothread.ofThread none).1.thrd = none ∧
    autothread.destruct p (autothread.ofThread none).1 = ([], none) ∧
    autothread.destructE p (autothread.ofThread none).1 = Except.ok ([], none) := by
  refine ⟨rfl, destruct_empty p ⟨none⟩ rfl, ?_⟩
  cases p <;> rfl

/-- C7: destruction never lets a failure of the underlying join/detach
action escape the owner's lifetime boundary: the fallible-primitive
destructor `destructE` always returns `Except.ok`, agreeing with the total
destructor, because the `joinable()` guard ensures the primitive is only
invoked on a joinable handle, where it cannot fail. -/
theorem autothread_destruction_never_fails (p : Policy) (a : autothread) :
    autothread.destructE p a = Except.ok (autothread.destruct p a) := by
  cases p <;> cases h : a.thrd <;>
    simp [autothread.destructE, autothread.destruct, stdJoin, stdDetach, h, Except.map]

/-- C8: along any sequence of operations the wrappers provide, once the
owner-visible state of a handle has left `joinable` (reaching `disposed`
via join/detach or `empty` via move-out), it never re-enters `joinable`;
moreover a single step from `joinable tid` only moves to `empty`,
`disposed`, or stays at `joinable tid` (the identity query) — the wrapper
is never re-pointed at a different thread. -/
theorem autothread_no_return_to_joinable :
    (∀ s t : OwnerState, Relation.ReflTransGen Step s t →
      (∀ tid, s ≠ OwnerState.joinable tid) → ∀ tid, t ≠ OwnerState.joinable tid) ∧
    (∀ tid t, Step (OwnerState.joinable tid) t →
      t = OwnerState.empty ∨ t = OwnerState.disposed ∨ t = OwnerState.joinable tid) := by
  constructor
  · intro s t h hs
    induction h with
    | refl => exact hs
    | tail _ h2 ih =>
        cases h2 with
        | moveFromJoinable tid0 => intro tid heq; cases heq
        | moveFromEmpty => intro tid heq; cases heq
        | getId s0 h0 => exact ih
        | destroyJoinable tid0 => intro tid heq; cases heq
        | destroyEmpty => intro tid heq; cases heq
  · intro tid t h
    cases h with
    | moveFromJoinable _ => exact Or.inl rfl
    | getId _ _ => exact Or.inr (Or.inr rfl)
    | destroyJoinable _ => exact Or.inr (Or.inl rfl)

/-- C8 witness: the theorem applied to the reflexive chain at the concrete
state `disposed`, showing it is not `joinable 0`. -/
theorem autothread_no_return_to_joinable_witness :
    OwnerState.disposed ≠ OwnerState.joinable 0 :=
  autothread_no_return_to_joinable.1 OwnerState.disposed OwnerState.disposed
    Relation.ReflTransGen.refl (fun _ heq => by cases heq) 0

/-- C9: on a wrapper owning thread `tid`, `get_id` returns that thread's
comparable identity token (`some tid`, valid before disposal) and has no
side effects: the wrapper after the call is the wrapper itself, its owned
handle and joinable state unchanged. -/
theorem autothread_get_id_pure (a : autothread) (tid : Nat)
    (h : a.thrd = some tid) :
    (autothread.get_id a).1 = some tid ∧
    (autothread.get_id a).2 = a ∧
    ((autothread.get_id a).2).thrd = a.thrd :=
  ⟨by simp [autothread.get_id, h], rfl, rfl⟩

/-- C9 witness: `get_id` evaluated on a wrapper owning thread 7. -/
theorem autothread_get_id_pure_witness :
    (autothread.get_id ⟨some 7⟩).1 = some 7 ∧
    (autothread.get_id ⟨some 7⟩).2 = (⟨some 7⟩ : autothread) ∧
    ((autothread.get_id ⟨some 7⟩).2).thrd = (⟨some 7⟩ : autothread).thrd :=
  autothread_get_id_pure ⟨some 7⟩ 7 rfl

/-- C10: on a wrapper whose handle is empty (moved-from or never owning a
thread), `get_id` does not fault: it returns the default-constructed
`std::thread::id` sentinel (`defaultThreadId`) and leaves the wrapper
unchanged — the implementation resolves the spec's open question in favor
of the sentinel, not an error. -/
theorem autothread_get_id_empty_sentinel (a : autothread) (h : a.thrd = none) :
    (autothread.get_id a).1 = defaultThreadId ∧
    (autothread.get_id a).2 = a :=
  ⟨by simp [autothread.get_id, defaultThreadId, h], rfl⟩

/-- C10 witness: `get_id` evaluated on the empty wrapper. -/
theorem autothread_get_id_empty_sentinel_witness :
    (autothread.get_id ⟨none⟩).1 = defaultThreadId ∧
    (autothread.get_id ⟨none⟩).2 = (⟨none⟩ : autothread) :=
  autothread_get_id_empty_sentinel ⟨none⟩ rfl

end wsp.details
